import Mathlib

/-!
Shallow embedding of the MedDSAgent-App frontend server, covering
src/terminal_manager.py (PTY-backed terminal sessions and their registry)
and src/server.py (the WebSocket connection handler and the reverse proxy).

Modelling conventions:
* Python dicts keyed by strings or ints (the terminal registry, the table of
  armed eviction-timer tasks, JSON objects, HTTP header multidicts) are
  association lists; the first binding for a key wins.
* The asyncio tasks armed by TerminalManager.schedule_destroy are rows of an
  explicit timer table with a one-shot status (pending / cancelled / fired).
* The event loop's reader-callback mechanism (loop.add_reader) is modelled by
  folding a list of fd-readiness events over the registered callback: while
  the callback is registered every readiness event invokes _on_readable, and
  an unregistered fd delivers nothing.  epoll is level-triggered, so a PTY
  master sitting in EOF/error state keeps producing readiness events until
  remove_reader is called.
* Exceptions that the Python code can raise and propagate are Except values;
  exceptions the code swallows do not surface in the corresponding function.
-/

namespace MedDSApp

section Dict

variable {κ α : Type} [DecidableEq κ]

/-- Python dict lookup (d.get(k)): the first binding for the key wins. -/
def dlookup (k : κ) : List (κ × α) → Option α
  | [] => none
  | (k', v) :: rest => if k = k' then some v else dlookup k rest

/-- Python dict assignment d[k] = v: overwrite in place, else append. -/
def dinsert (k : κ) (v : α) : List (κ × α) → List (κ × α)
  | [] => [(k, v)]
  | (k', v') :: rest =>
    if k = k' then (k, v) :: rest else (k', v') :: dinsert k v rest

/-- Python dict d.pop(k, None): drop the binding of the key, if any. -/
def dremove (k : κ) : List (κ × α) → List (κ × α)
  | [] => []
  | (k', v') :: rest => if k = k' then rest else (k', v') :: dremove k rest

/-- Attribute assignment on the object stored under a key: update its value
in place, leaving the rest of the dict untouched. -/
def dupdate (k : κ) (f : α → α) : List (κ × α) → List (κ × α)
  | [] => []
  | (k', v') :: rest =>
    if k = k' then (k', f v') :: rest else (k', v') :: dupdate k f rest

end Dict

/-- terminal_manager.RECONNECT_TIMEOUT_SECONDS (5 minutes). -/
def RECONNECT_TIMEOUT_SECONDS : Nat := 300

/-- One chunk of bytes produced by os.read(master_fd, 4096). -/
abbrev Chunk := List Nat

/-- An item of TerminalProcess.output_queue: a data chunk, or the sentinel
None signalling that bash exited / the PTY closed. -/
abbrev QItem := Option Chunk

/-- Lifecycle of an asyncio task armed by schedule_destroy. -/
inductive TimerStatus
  | pending
  | cancelled
  | fired
deriving DecidableEq

/-- One task armed by TerminalManager.schedule_destroy: a one-shot countdown
of delay seconds whose body destroys its target terminal on expiry. -/
structure TimerInfo where
  target : String
  delay : Nat
  status : TimerStatus
deriving DecidableEq

/-- terminal_manager.TerminalProcess: one PTY-backed bash session.  Kernel
state the Python object reaches through master_fd (window geometry, bytes
written into the PTY) is carried inline; destroy_task holds the key of the
armed timer task, if any; nonce distinguishes distinct spawned objects. -/
structure TerminalProcess where
  terminal_id : String
  master_fd : Nat
  pid : Nat
  cwd : String
  nonce : Nat
  output_queue : List QItem := []
  readerRegistered : Bool := false
  procKilled : Bool := false
  fdClosed : Bool := false
  destroy_task : Option Nat := none
  cols : Int := 80
  rows : Int := 24
  ptyInput : List Nat := []
deriving DecidableEq

/-- Outcome of one os.read(master_fd, 4096) call. -/
inductive ReadOutcome
  | data (chunk : Chunk)
  | oserror
deriving DecidableEq

/-- TerminalProcess._on_readable (terminal_manager.py lines 54-60): a
successful read enqueues its bytes, OSError enqueues the sentinel.  Neither
branch unregisters the reader callback. -/
def on_readable (t : TerminalProcess) : ReadOutcome → TerminalProcess
  | .data c => { t with output_queue := t.output_queue ++ [some c] }
  | .oserror => { t with output_queue := t.output_queue ++ [none] }

/-- The while-not-empty / get_nowait loop of TerminalProcess.drain_queue. -/
def drainLoop : List QItem → List QItem
  | [] => []
  | _ :: rest => drainLoop rest

/-- TerminalProcess.drain_queue (lines 62-68). -/
def drain_queue (t : TerminalProcess) : TerminalProcess :=
  { t with output_queue := drainLoop t.output_queue }

/-- TerminalProcess.start_reading (lines 42-45): drain stale output, then
register the reader callback with the event loop. -/
def start_reading (t : TerminalProcess) : TerminalProcess :=
  let t' := drain_queue t
  { t' with readerRegistered := true }

/-- TerminalProcess.stop_reading (lines 47-52): unregister the reader
callback; any error is swallowed, so this is a total no-fail operation. -/
def stop_reading (t : TerminalProcess) : TerminalProcess :=
  { t with readerRegistered := false }

/-- The event loop delivering fd-readiness events one at a time: while the
reader callback is registered each event invokes _on_readable; events on an
unregistered fd are dropped. -/
def runReader (t : TerminalProcess) : List ReadOutcome → TerminalProcess
  | [] => t
  | e :: evs => runReader (if t.readerRegistered then on_readable t e else t) evs

/-- The queue item one readiness event makes _on_readable produce. -/
def itemOf : ReadOutcome → QItem
  | .data c => some c
  | .oserror => none

/-- Exceptions relevant to the connection handler's frame processing. -/
inductive PyExc
  | attributeError
  | valueError
  | typeError
  | structError
deriving DecidableEq

/-- TerminalProcess.write (lines 70-74): os.write to the master fd with
OSError swallowed (a closed fd accepts nothing, silently). -/
def TerminalProcess.write (t : TerminalProcess) (data : List Nat) : TerminalProcess :=
  if t.fdClosed then t else { t with ptyInput := t.ptyInput ++ data }

/-- TerminalProcess.resize (lines 76-84): struct.pack("HHHH", rows, cols, 0, 0)
requires unsigned shorts and raises struct.error otherwise, which the
except OSError clause does not catch; the TIOCSWINSZ ioctl's OSError (for
example on a closed fd) is swallowed. -/
def TerminalProcess.resize (t : TerminalProcess) (cols rows : Int) :
    Except PyExc TerminalProcess :=
  if 0 ≤ rows ∧ rows < 65536 ∧ 0 ≤ cols ∧ cols < 65536 then
    .ok (if t.fdClosed then t else { t with cols := cols, rows := rows })
  else
    .error .structError

/-- TerminalProcess.cancel_destroy_timer (lines 90-93): if _destroy_task
holds a task that is not done, cancel it and clear the reference; otherwise
do nothing.  Takes and returns the table of armed timer tasks. -/
def TerminalProcess.cancel_destroy_timer (t : TerminalProcess)
    (timers : List (Nat × TimerInfo)) :
    TerminalProcess × List (Nat × TimerInfo) :=
  match t.destroy_task with
  | none => (t, timers)
  | some j =>
    match dlookup j timers with
    | none => (t, timers)
    | some info =>
      if info.status = TimerStatus.pending then
        ({ t with destroy_task := none },
          dupdate j (fun i => { i with status := TimerStatus.cancelled }) timers)
      else
        (t, timers)

/-- TerminalProcess.close (lines 95-104): stop reading, kill the child
(ProcessLookupError/OSError swallowed), close the master fd (OSError
swallowed); total and idempotent. -/
def TerminalProcess.close (t : TerminalProcess) : TerminalProcess :=
  { t with readerRegistered := false, procKilled := true, fdClosed := true }

/-- TerminalManager together with the asyncio timer tasks it has armed.
nextFd / nextPid model the kernel handing out fresh descriptors and pids;
spawnCount counts successful create_subprocess_exec calls and stamps each
TerminalProcess with its distinguishing nonce. -/
structure ManagerState where
  terminals : List (String × TerminalProcess)
  timers : List (Nat × TimerInfo)
  nextTimer : Nat
  nextFd : Nat
  nextPid : Nat
  spawnCount : Nat
deriving DecidableEq

/-- The filesystem facts TerminalManager.create consults: os.path.isdir and
os.path.expanduser of the home directory. -/
structure FileSystem where
  isdir : String → Bool
  home : String

inductive SpawnError
  | spawnFailure
deriving DecidableEq

namespace TerminalManager

/-- TerminalManager.create (terminal_manager.py lines 113-161).  spawnOk
says whether asyncio.create_subprocess_exec succeeds; on failure its
exception propagates to the caller (Except.error) after the PTY pair was
already allocated and, in particular, before the registry insertion. -/
def create (fs : FileSystem) (spawnOk : Bool) (st : ManagerState)
    (terminal_id work_dir : String) :
    ManagerState × Except SpawnError TerminalProcess :=
  let wd := if fs.isdir work_dir then work_dir else fs.home
  let master_fd := st.nextFd
  let st1 : ManagerState := { st with nextFd := st.nextFd + 2 }
  if spawnOk then
    let t : TerminalProcess :=
      { terminal_id := terminal_id, master_fd := master_fd, pid := st1.nextPid,
        cwd := wd, nonce := st1.spawnCount }
    ({ st1 with
        nextPid := st1.nextPid + 1,
        spawnCount := st1.spawnCount + 1,
        terminals := dinsert terminal_id t st1.terminals }, .ok t)
  else
    (st1, .error .spawnFailure)

/-- TerminalManager.destroy (lines 163-169): pop the registry entry; if it
was present, cancel its timer task and close it.  The closed
TerminalProcess is returned so that its final state stays observable (in
Python the object lives on through other references). -/
def destroy (st : ManagerState) (terminal_id : String) :
    ManagerState × Option TerminalProcess :=
  match dlookup terminal_id st.terminals with
  | none => (st, none)
  | some t =>
    let st1 : ManagerState := { st with terminals := dremove terminal_id st.terminals }
    let p := t.cancel_destroy_timer st1.timers
    ({ st1 with timers := p.2 }, some p.1.close)

/-- TerminalManager.schedule_destroy (lines 171-191): no-op for an unknown
id; otherwise cancel the terminal's current timer task and arm a fresh
one-shot RECONNECT_TIMEOUT_SECONDS countdown that will destroy it. -/
def schedule_destroy (st : ManagerState) (terminal_id : String) : ManagerState :=
  match dlookup terminal_id st.terminals with
  | none => st
  | some t =>
    let p := t.cancel_destroy_timer st.timers
    let j := st.nextTimer
    { st with
      timers := p.2 ++
        [(j, { target := terminal_id, delay := RECONNECT_TIMEOUT_SECONDS,
               status := TimerStatus.pending })],
      nextTimer := j + 1,
      terminals :=
        dupdate terminal_id (fun _ => { p.1 with destroy_task := some j }) st.terminals }

/-- Expiry of an armed timer task: the body _delayed (lines 179-189) runs
destroy once the sleep finishes, unless the task was cancelled first
(asyncio.CancelledError is caught and discarded, so a cancelled arming
never destroys anything). -/
def fire_timer (st : ManagerState) (j : Nat) : ManagerState :=
  match dlookup j st.timers with
  | none => st
  | some info =>
    if info.status = TimerStatus.pending then
      let st1 : ManagerState :=
        { st with
          timers := dupdate j (fun i => { i with status := TimerStatus.fired }) st.timers }
      (destroy st1 info.target).1
    else
      st

end TerminalManager

/-- server.terminal_ws reconnect path (server.py line 110):
terminal.cancel_destroy_timer() on the registry's terminal for this id. -/
def cancelEviction (st : ManagerState) (terminal_id : String) : ManagerState :=
  match dlookup terminal_id st.terminals with
  | none => st
  | some t =>
    let p := t.cancel_destroy_timer st.timers
    { st with timers := p.2,
              terminals := dupdate terminal_id (fun _ => p.1) st.terminals }

/-- server.terminal_ws attach (lines 105-110): reuse the registry's terminal
when present, cancelling its eviction timer on the way, otherwise create a
fresh one for the resolved working directory. -/
def lookupOrCreate (fs : FileSystem) (spawnOk : Bool) (st : ManagerState)
    (terminal_id work_dir : String) :
    ManagerState × Except SpawnError TerminalProcess :=
  match dlookup terminal_id st.terminals with
  | some t =>
    let p := t.cancel_destroy_timer st.timers
    ({ st with timers := p.2,
               terminals := dupdate terminal_id (fun _ => p.1) st.terminals }, .ok p.1)
  | none => TerminalManager.create fs spawnOk st terminal_id work_dir

/-- The Python values json.loads can hand the resize handler.  Floats and
containers other than a flat object are irrelevant to the control protocol
and are omitted. -/
inductive PyVal
  | pynone
  | pybool (b : Bool)
  | pyint (n : Int)
  | pystr (s : String)
  | pydict (entries : List (String × PyVal))

/-- Zero digits of the decimal-digit runs int() accepts: every Unicode Nd
run is ten consecutive code points starting at its zero digit. -/
def ndZeros : List Nat :=
  [0x0030, 0x0660, 0x06F0, 0x07C0, 0x0966, 0x09E6, 0x0A66, 0x0AE6, 0x0B66,
   0x0BE6, 0x0C66, 0x0CE6, 0x0D66, 0x0DE6, 0x0E50, 0x0ED0, 0x0F20, 0x1040,
   0x1090, 0x17E0, 0x1810, 0x1946, 0x19D0, 0x1A80, 0x1A90, 0x1B50, 0x1BB0,
   0x1C40, 0x1C50, 0xA620, 0xA8D0, 0xA900, 0xA9D0, 0xA9F0, 0xAA50, 0xABF0,
   0xFF10, 0x104A0, 0x10D30, 0x11066, 0x110F0, 0x11136, 0x111D0, 0x112F0,
   0x11450, 0x114D0, 0x11650, 0x116C0, 0x11730, 0x118E0, 0x11950, 0x11C50,
   0x11D50, 0x11DA0, 0x16A60, 0x16AC0, 0x16B50, 0x1D7CE, 0x1D7D8, 0x1D7E2,
   0x1D7EC, 0x1D7F6, 0x1E140, 0x1E2F0, 0x1E950, 0x1FBF0]

/-- The decimal value of a character when int() treats it as a digit. -/
def pyDigitVal (c : Char) : Option Nat :=
  (ndZeros.find? (fun s => s ≤ c.toNat && c.toNat < s + 10)).map
    (fun s => c.toNat - s)

/-- The code points int() strips around a numeric literal. -/
def pyWhitespace : List Nat :=
  [0x0009, 0x000A, 0x000B, 0x000C, 0x000D, 0x0020, 0x0085, 0x00A0, 0x1680,
   0x2000, 0x2001, 0x2002, 0x2003, 0x2004, 0x2005, 0x2006, 0x2007, 0x2008,
   0x2009, 0x200A, 0x2028, 0x2029, 0x202F, 0x205F, 0x3000]

def pyIsSpace (c : Char) : Bool := pyWhitespace.contains c.toNat

/-- Accumulate a digit string in which single underscores may separate
digits, as int() allows: an underscore must be immediately followed by a
digit, so trailing or doubled underscores fail. -/
def digitsValU (acc : Nat) : List Char → Option Nat
  | [] => some acc
  | [c] =>
    match pyDigitVal c with
    | some d => some (acc * 10 + d)
    | none => none
  | c :: c' :: cs =>
    match pyDigitVal c with
    | some d => digitsValU (acc * 10 + d) (c' :: cs)
    | none =>
      if c = '_' then
        match pyDigitVal c' with
        | some d => digitsValU (acc * 10 + d) cs
        | none => none
      else none

/-- A digit string parses when it opens with a digit (a leading underscore
fails) and continues per digitsValU; anything else raises ValueError. -/
def parseDigits (cs : List Char) : Option Nat :=
  match cs with
  | [] => none
  | c :: cs' =>
    match pyDigitVal c with
    | some d => digitsValU d cs'
    | none => none

def dropLeadingSpaces : List Char → List Char
  | [] => []
  | c :: cs => if pyIsSpace c then dropLeadingSpaces cs else c :: cs

/-- Strip whitespace from both ends, as int() does to a str argument. -/
def pyTrim (cs : List Char) : List Char :=
  (dropLeadingSpaces (dropLeadingSpaces cs).reverse).reverse

/-- Integer parsing done by int() on a str: optional surrounding
whitespace, an optional sign, then decimal digits of any script with
single underscores allowed between digits (int("1_0") is 10). -/
def pyStrToInt (s : String) : Option Int :=
  match pyTrim s.toList with
  | '-' :: rest => (parseDigits rest).map (fun n => -(n : Int))
  | '+' :: rest => (parseDigits rest).map (fun n => (n : Int))
  | cs => (parseDigits cs).map (fun n => (n : Int))

/-- int(x) as applied to the cols/rows values: ints pass through, bools map
to 0/1, numeric strings parse per pyStrToInt (ValueError otherwise), None
and dicts raise TypeError. -/
def pyInt : PyVal → Except PyExc Int
  | .pyint n => .ok n
  | .pybool b => .ok (if b then 1 else 0)
  | .pystr s =>
    match pyStrToInt s with
    | some n => .ok n
    | none => .error .valueError
  | .pynone => .error .typeError
  | .pydict _ => .error .typeError

/-- Python equality of an arbitrary value against a str literal: only equal
strings compare equal, everything else is False without error. -/
def pyEqStr : PyVal → String → Bool
  | .pystr s, u => s == u
  | _, _ => false

/-- A text frame after json.loads: either the parse raised
json.JSONDecodeError, or it yielded a value. -/
inductive TextMsg
  | invalidJSON
  | val (v : PyVal)

/-- What processing one text frame does to the connection: continue the
receive loop (having requested a resize with the given cols/rows, or not),
or escape the inner except clause and so terminate the handler. -/
inductive TextOutcome
  | cont (resizeCall : Option (Int × Int))
  | handlerError (e : PyExc)
deriving DecidableEq

/-- server.terminal_ws text-frame handling (lines 136-145).  The inner
except catches json.JSONDecodeError, ValueError and TypeError only:
payload.get on a non-dict raises AttributeError, which escapes to the outer
handler and ends the connection; an int() failure on cols or rows aborts
the statement before resize is invoked, so the frame is dropped and the
loop continues. -/
def handleTextFrame : TextMsg → TextOutcome
  | .invalidJSON => .cont none
  | .val (.pydict xs) =>
    if pyEqStr ((dlookup "type" xs).getD .pynone) "resize" then
      match pyInt ((dlookup "cols" xs).getD (.pyint 80)) with
      | .error _ => .cont none
      | .ok cols =>
        match pyInt ((dlookup "rows" xs).getD (.pyint 24)) with
        | .error _ => .cont none
        | .ok rows => .cont (some (cols, rows))
    else .cont none
  | .val _ => .handlerError .attributeError

/-- A frame received from the WebSocket client. -/
inductive WsFrame
  | binary (data : List Nat)
  | text (msg : TextMsg)

/-- One iteration of the terminal_ws receive loop (lines 132-145): binary
frames are written to the PTY verbatim; text frames run the control
protocol, and an exception the inner except does not catch (AttributeError
from a non-dict payload, struct.error from an out-of-range resize) falls to
the outer handler and ends the loop.  Returns the terminal state and
whether the loop survives the frame. -/
def receive_step (t : TerminalProcess) : WsFrame → TerminalProcess × Bool
  | .binary data => (t.write data, true)
  | .text m =>
    match handleTextFrame m with
    | .cont none => (t, true)
    | .cont (some (c, r)) =>
      match t.resize c r with
      | .ok t' => (t', true)
      | .error _ => (t, false)
    | .handlerError _ => (t, false)

/-- HTTP headers as an ordered list of name/value pairs. -/
abbrev Headers := List (String × String)

/-- server._HOP_BY_HOP (server.py lines 175-178). -/
def HOP_BY_HOP : List String :=
  ["connection", "keep-alive", "proxy-authenticate", "proxy-authorization",
   "te", "trailers", "transfer-encoding", "upgrade"]

/-- ASCII lowercasing of one character (header names are ASCII). -/
def lowerChar (c : Char) : Char :=
  if 'A' ≤ c ∧ c ≤ 'Z' then Char.ofNat (c.toNat + 32) else c

/-- str.lower() as applied to header names. -/
def lowerStr (s : String) : String :=
  String.mk (s.toList.map lowerChar)

def isHopByHop (name : String) : Bool :=
  HOP_BY_HOP.contains (lowerStr name)

/-- server._forward_headers (lines 181-187): drop hop-by-hop names and Host,
case-insensitively. -/
def forward_headers (hs : Headers) : Headers :=
  hs.filter (fun kv => !isHopByHop kv.1 && lowerStr kv.1 != "host")

structure ProxyRequest where
  method : String
  path : String
  queryString : String
  headers : Headers
  body : String
deriving DecidableEq

/-- Starlette's case-insensitive request.headers.get(name, default); the
name argument is assumed already lowercased, as at the call site. -/
def headerGet (hs : Headers) (name default : String) : String :=
  match hs.find? (fun kv => lowerStr kv.1 == name) with
  | some kv => kv.2
  | none => default

/-- Substring test, as in the Python expression needle in hay. -/
def strContains (hay needle : String) : Bool :=
  (List.range (hay.toList.length + 1)).any
    (fun i => needle.toList.isPrefixOf (hay.toList.drop i))

/-- server.proxy line 201: streaming mode is selected when the Accept header
mentions text/event-stream. -/
def isSSERequest (req : ProxyRequest) : Bool :=
  strContains (headerGet req.headers "accept" "") "text/event-stream"

/-- What the backend does for a forwarded request. -/
inductive BackendOutcome
  | ok (status : Nat) (headers : Headers) (chunks : List String)
  | connectError
  | timeout
deriving DecidableEq

structure ForwardedRequest where
  method : String
  url : String
  headers : Headers
  body : String
deriving DecidableEq

/-- The response the proxy hands back to its client: status, the headers
dict passed explicitly, the media type, and the body chunks in order. -/
structure ClientResponse where
  status : Nat
  headers : Headers
  media_type : Option String
  chunks : List String
deriving DecidableEq

/-- The synthetic in-stream event for httpx.ConnectError (line 213). -/
def SSE_UNREACHABLE_EVENT : String :=
  "data: \x7b\"type\":\"error\",\"data\":\"Backend unreachable\"\x7d\n\n"

/-- The synthetic in-stream event for httpx.TimeoutException (line 215). -/
def SSE_TIMEOUT_EVENT : String :=
  "data: \x7b\"type\":\"error\",\"data\":\"Backend request timed out\"\x7d\n\n"

/-- json.dumps body of the buffered-mode 503 (lines 235-237). -/
def UNREACHABLE_BODY : String :=
  "\x7b\"detail\": \"Backend unreachable. Is the MedDSAgent server running?\"\x7d"

/-- json.dumps body of the buffered-mode 504 (line 243). -/
def TIMEOUT_BODY : String :=
  "\x7b\"detail\": \"Backend request timed out.\"\x7d"

/-- Target URL construction (lines 196-197). -/
def backendTarget (backendUrl : String) (req : ProxyRequest) : String :=
  backendUrl ++ "/" ++ req.path ++
    (if req.queryString = "" then "" else "?" ++ req.queryString)

/-- The request sent to the backend: method, target URL, filtered headers,
and the original body (line 198 and both branch calls). -/
def forwardedRequest (backendUrl : String) (req : ProxyRequest) : ForwardedRequest :=
  { method := req.method, url := backendTarget backendUrl req,
    headers := forward_headers req.headers, body := req.body }

/-- The streaming branch (lines 200-221): a StreamingResponse with default
status 200, the fixed Cache-Control / Connection headers and media type
text/event-stream, whose stream carries the backend's body chunks as they
arrive, or a single synthetic error event. -/
def sse_response (backend : BackendOutcome) : ClientResponse :=
  { status := 200,
    headers := [("Cache-Control", "no-cache"), ("Connection", "keep-alive")],
    media_type := some "text/event-stream",
    chunks :=
      match backend with
      | .ok _ _ chunks => chunks
      | .connectError => [SSE_UNREACHABLE_EVENT]
      | .timeout => [SSE_TIMEOUT_EVENT] }

/-- The buffered branch (lines 223-260): forward status, hop-by-hop-filtered
headers and the full body; 503/504 JSON errors on connect failure and
timeout. -/
def buffered_response (backend : BackendOutcome) : ClientResponse :=
  match backend with
  | .ok status hs chunks =>
    { status := status,
      headers := hs.filter (fun kv => !isHopByHop kv.1),
      media_type := (hs.find? (fun kv => lowerStr kv.1 == "content-type")).map Prod.snd,
      chunks := [String.join chunks] }
  | .connectError =>
    { status := 503, headers := [], media_type := some "application/json",
      chunks := [UNREACHABLE_BODY] }
  | .timeout =>
    { status := 504, headers := [], media_type := some "application/json",
      chunks := [TIMEOUT_BODY] }

/-- server.proxy: the forwarded request (both modes share _forward_headers)
and the client-facing response for the given backend outcome. -/
def proxy (backendUrl : String) (req : ProxyRequest) (backend : BackendOutcome) :
    ForwardedRequest × ClientResponse :=
  (forwardedRequest backendUrl req,
   if isSSERequest req then sse_response backend else buffered_response backend)

/-- Timer-table well-formedness: registry and timer keys are duplicate-free,
every pending timer is exactly the task its target terminal's _destroy_task
references, and every armed timer key is below the allocator. -/
def TimerInv (st : ManagerState) : Prop :=
  (st.terminals.map Prod.fst).Nodup ∧
  (st.timers.map Prod.fst).Nodup ∧
  (∀ p ∈ st.timers, p.2.status = TimerStatus.pending →
    (dlookup p.2.target st.terminals).map TerminalProcess.destroy_task =
      some (some p.1)) ∧
  (∀ p ∈ st.timers, p.1 < st.nextTimer)

/-- Timer j is an armed, still-pending eviction countdown for terminal tid. -/
def isPendingTimer (st : ManagerState) (tid : String) (j : Nat) : Prop :=
  ∃ info, dlookup j st.timers = some info ∧ info.target = tid ∧
    info.status = TimerStatus.pending

/-- A freshly spawned terminal used by the concrete scenarios below. -/
def sampleTerminal : TerminalProcess :=
  { terminal_id := "t0", master_fd := 3, pid := 100, cwd := "/workspace", nonce := 0 }

/-- A filesystem in which only /workspace exists. -/
def fsSample : FileSystem :=
  { isdir := fun s => s == "/workspace", home := "/home/user" }

/-- An empty manager, as at server start. -/
def managerSt0 : ManagerState :=
  { terminals := [], timers := [], nextTimer := 0, nextFd := 3, nextPid := 100,
    spawnCount := 0 }

/-- A disconnected terminal whose eviction timer 0 is pending. -/
def termWithTimer : TerminalProcess :=
  { terminal_id := "tm", master_fd := 5, pid := 101, cwd := "/workspace", nonce := 1,
    destroy_task := some 0 }

/-- A manager holding termWithTimer with its armed timer. -/
def managerStTimer : ManagerState :=
  { terminals := [("tm", termWithTimer)],
    timers := [(0, { target := "tm", delay := 300, status := TimerStatus.pending })],
    nextTimer := 1, nextFd := 7, nextPid := 102, spawnCount := 2 }

/-- The terminal object built by a successful create. -/
def createdTerminal (fs : FileSystem) (st : ManagerState) (tid wd : String) :
    TerminalProcess :=
  { terminal_id := tid,
    master_fd := st.nextFd,
    pid := st.nextPid,
    cwd := if fs.isdir wd then wd else fs.home,
    nonce := st.spawnCount }

/-- A terminal created by a first attach, for concrete scenarios. -/
def tSampleA : TerminalProcess :=
  { terminal_id := "term-a", master_fd := 3, pid := 100, cwd := "/workspace",
    nonce := 0 }

/-- An SSE request: the chat endpoint declaring Accept: text/event-stream. -/
def reqSSE : ProxyRequest :=
  { method := "POST", path := "api/chat", queryString := "",
    headers := [("accept", "text/event-stream"), ("Connection", "keep-alive")],
    body := "hello" }

/-! Association-list lemmas shared by the development. -/

section DictLemmas

variable {κ α : Type} [DecidableEq κ]

theorem dlookup_mem {k : κ} {v : α} {l : List (κ × α)}
    (h : dlookup k l = some v) : (k, v) ∈ l := by
  induction l with
  | nil => simp [dlookup] at h
  | cons p rest ih =>
    obtain ⟨k', v'⟩ := p
    by_cases hk : k = k'
    · subst hk
      simp [dlookup] at h
      simp [h]
    · simp [dlookup, hk] at h
      exact List.mem_cons_of_mem _ (ih h)

theorem dlookup_eq_none {k : κ} {l : List (κ × α)}
    (h : k ∉ l.map Prod.fst) : dlookup k l = none := by
  induction l with
  | nil => rfl
  | cons p rest ih =>
    obtain ⟨k', v'⟩ := p
    rw [List.map_cons] at h
    have h1 : k ≠ k' := fun he => h (he ▸ List.mem_cons_self _ _)
    have h2 : k ∉ rest.map Prod.fst := fun hm => h (List.mem_cons_of_mem _ hm)
    simp [dlookup, h1, ih h2]

theorem mem_dlookup {k : κ} {v : α} {l : List (κ × α)}
    (hnd : (l.map Prod.fst).Nodup) (h : (k, v) ∈ l) : dlookup k l = some v := by
  induction l with
  | nil => simp at h
  | cons p rest ih =>
    obtain ⟨k', v'⟩ := p
    rw [List.map_cons, List.nodup_cons] at hnd
    rcases List.mem_cons.mp h with heq | hmem
    · injection heq with h1 h2
      subst h1; subst h2
      simp [dlookup]
    · have hk : k ≠ k' := by
        intro hkk
        have h3 : k ∈ rest.map Prod.fst := List.mem_map_of_mem Prod.fst hmem
        rw [hkk] at h3
        exact hnd.1 h3
      simp only [dlookup, if_neg hk]
      exact ih hnd.2 hmem

theorem dlookup_dinsert_self {k : κ} {v : α} {l : List (κ × α)} :
    dlookup k (dinsert k v l) = some v := by
  induction l with
  | nil => simp [dinsert, dlookup]
  | cons p rest ih =>
    obtain ⟨k', v'⟩ := p
    by_cases hk : k = k'
    · subst hk; simp [dinsert, dlookup]
    · simp [dinsert, dlookup, hk, ih]

theorem dlookup_dinsert_ne {k k' : κ} {v : α} {l : List (κ × α)} (h : k ≠ k') :
    dlookup k (dinsert k' v l) = dlookup k l := by
  induction l with
  | nil => simp [dinsert, dlookup, h]
  | cons p rest ih =>
    obtain ⟨k'', v''⟩ := p
    by_cases hk : k' = k''
    · subst hk; simp [dinsert, dlookup, h]
    · by_cases hkk : k = k''
      · subst hkk; simp [dinsert, dlookup, hk]
      · simp [dinsert, dlookup, hk, hkk, ih]

theorem dlookup_dupdate_self {k : κ} {f : α → α} {l : List (κ × α)} :
    dlookup k (dupdate k f l) = (dlookup k l).map f := by
  induction l with
  | nil => simp [dupdate, dlookup]
  | cons p rest ih =>
    obtain ⟨k', v'⟩ := p
    by_cases hk : k = k'
    · subst hk; simp [dupdate, dlookup]
    · simp [dupdate, dlookup, hk, ih]

theorem dlookup_dupdate_ne {k k' : κ} {f : α → α} {l : List (κ × α)} (h : k ≠ k') :
    dlookup k (dupdate k' f l) = dlookup k l := by
  induction l with
  | nil => simp [dupdate, dlookup]
  | cons p rest ih =>
    obtain ⟨k'', v''⟩ := p
    by_cases hk : k' = k''
    · subst hk; simp [dupdate, dlookup, h]
    · by_cases hkk : k = k''
      · subst hkk; simp [dupdate, dlookup, hk]
      · simp [dupdate, dlookup, hk, hkk, ih]

theorem keys_dupdate {k : κ} {f : α → α} {l : List (κ × α)} :
    (dupdate k f l).map Prod.fst = l.map Prod.fst := by
  induction l with
  | nil => rfl
  | cons p rest ih =>
    obtain ⟨k', v'⟩ := p
    by_cases hk : k = k'
    · subst hk; simp [dupdate]
    · simp [dupdate, hk, ih]

theorem dlookup_dremove_self {k : κ} {l : List (κ × α)}
    (hnd : (l.map Prod.fst).Nodup) : dlookup k (dremove k l) = none := by
  induction l with
  | nil => rfl
  | cons p rest ih =>
    obtain ⟨k', v'⟩ := p
    rw [List.map_cons, List.nodup_cons] at hnd
    by_cases hk : k = k'
    · subst hk
      simp only [dremove, if_pos rfl]
      exact dlookup_eq_none hnd.1
    · simp [dremove, hk, dlookup, ih hnd.2]

theorem dlookup_dremove_ne {k k' : κ} {l : List (κ × α)} (h : k ≠ k') :
    dlookup k (dremove k' l) = dlookup k l := by
  induction l with
  | nil => rfl
  | cons p rest ih =>
    obtain ⟨k'', v''⟩ := p
    by_cases hk : k' = k''
    · subst hk; simp [dremove, dlookup, h]
    · by_cases hkk : k = k''
      · subst hkk; simp [dremove, dlookup, hk]
      · simp [dremove, dlookup, hk, hkk, ih]

theorem keys_dremove_sublist {k : κ} {l : List (κ × α)} :
    ((dremove k l).map Prod.fst).Sublist (l.map Prod.fst) := by
  induction l with
  | nil => simp [dremove]
  | cons p rest ih =>
    obtain ⟨k', v'⟩ := p
    by_cases hk : k = k'
    · subst hk
      simp only [dremove, if_pos rfl, List.map_cons]
      exact (List.Sublist.refl _).cons _
    · simp only [dremove, if_neg hk, List.map_cons]
      exact List.Sublist.cons₂ _ ih

theorem mem_dinsert {k : κ} {v : α} {q : κ × α} {l : List (κ × α)}
    (h : q ∈ dinsert k v l) : q = (k, v) ∨ q ∈ l := by
  induction l with
  | nil => simpa [dinsert] using h
  | cons p rest ih =>
    obtain ⟨k', v'⟩ := p
    by_cases hk : k = k'
    · subst hk
      simp only [dinsert, if_pos rfl] at h
      rcases List.mem_cons.mp h with h' | h'
      · exact Or.inl h'
      · exact Or.inr (List.mem_cons_of_mem _ h')
    · simp only [dinsert, if_neg hk] at h
      rcases List.mem_cons.mp h with h' | h'
      · exact Or.inr (h' ▸ List.mem_cons_self _ _)
      · rcases ih h' with h'' | h''
        · exact Or.inl h''
        · exact Or.inr (List.mem_cons_of_mem _ h'')

theorem keys_dinsert_nodup {k : κ} {v : α} {l : List (κ × α)}
    (hnd : (l.map Prod.fst).Nodup) : ((dinsert k v l).map Prod.fst).Nodup := by
  induction l with
  | nil => simp [dinsert]
  | cons p rest ih =>
    obtain ⟨k', v'⟩ := p
    simp only [List.map_cons, List.nodup_cons] at hnd
    by_cases hk : k = k'
    · subst hk
      simp only [dinsert, if_true, List.map_cons, List.nodup_cons]
      exact hnd
    · simp only [dinsert, if_neg hk, List.map_cons, List.nodup_cons]
      refine ⟨?_, ih hnd.2⟩
      intro hmem
      obtain ⟨q, hq, hq1⟩ := List.mem_map.mp hmem
      rcases mem_dinsert hq with h' | h'
      · apply hk
        rw [h'] at hq1
        exact hq1
      · apply hnd.1
        have h3 : q.1 ∈ rest.map Prod.fst := List.mem_map_of_mem Prod.fst h'
        rw [hq1] at h3
        exact h3

theorem dlookup_append_some {k : κ} {v : α} {l₁ l₂ : List (κ × α)}
    (h : dlookup k l₁ = some v) : dlookup k (l₁ ++ l₂) = some v := by
  induction l₁ with
  | nil => simp [dlookup] at h
  | cons p rest ih =>
    obtain ⟨k', v'⟩ := p
    by_cases hk : k = k'
    · subst hk
      simp [dlookup] at h ⊢
      exact h
    · simp [dlookup, hk] at h ⊢
      exact ih h

theorem dlookup_append_none {k : κ} {l₁ l₂ : List (κ × α)}
    (h : dlookup k l₁ = none) : dlookup k (l₁ ++ l₂) = dlookup k l₂ := by
  induction l₁ with
  | nil => rfl
  | cons p rest ih =>
    obtain ⟨k', v'⟩ := p
    by_cases hk : k = k'
    · subst hk; simp [dlookup] at h
    · simp [dlookup, hk] at h ⊢
      exact ih h

end DictLemmas

/-! The PTY read path. -/

/-- While the reader callback stays registered, the events delivered by the
event loop append their items to the output queue in order, and the
registration is never changed by the callback itself. -/
theorem runReader_registered (t : TerminalProcess) (evs : List ReadOutcome)
    (h : t.readerRegistered = true) :
    (runReader t evs).output_queue = t.output_queue ++ evs.map itemOf ∧
    (runReader t evs).readerRegistered = true := by
  induction evs generalizing t with
  | nil => simp [runReader, h]
  | cons e evs ih =>
    have h1 : (on_readable t e).readerRegistered = true := by
      cases e <;> simp [on_readable, h]
    have hq : (on_readable t e).output_queue = t.output_queue ++ [itemOf e] := by
      cases e <;> simp [on_readable, itemOf]
    have h2 := ih (on_readable t e) h1
    simp only [runReader, h, if_true]
    exact ⟨by rw [h2.1, hq]; simp, h2.2⟩

/-- C4: whenever the read loop is (re)started — in particular when a new
connection attaches to an existing session, server.py line 112 —
start_reading first discards every previously buffered, undelivered output
chunk and only then registers the reader, so the new consumer's queue is
empty and everything deliverable afterwards is exactly what the PTY
produces after the (re)start. -/
theorem start_reading_discards_stale_output (t : TerminalProcess)
    (evs : List ReadOutcome) :
    (start_reading t).output_queue = [] ∧
    (start_reading t).readerRegistered = true ∧
    (runReader (start_reading t) evs).output_queue = evs.map itemOf := by
  have hq : ∀ q : List QItem, drainLoop q = [] := by
    intro q
    induction q with
    | nil => rfl
    | cons x rest ih => simpa [drainLoop] using ih
  have h1 : (start_reading t).output_queue = [] := by
    simp [start_reading, drain_queue, hq]
  have h2 : (start_reading t).readerRegistered = true := rfl
  have h3 := runReader_registered (start_reading t) evs h2
  exact ⟨h1, h2, by rw [h3.1, h1]; simp⟩

/-- C1 counterexample: after the PTY read path hits a read error the reader
stays registered, so one more readiness event (the error condition is
level-triggered and persists) re-runs _on_readable and enqueues a second
sentinel: on a fresh terminal two error events leave the queue holding two
sentinels, and after the first error event the read loop has not
terminated.  This contradicts the claim that the sentinel is enqueued
exactly once and that no further reads are attempted. -/
theorem sentinel_enqueued_twice_after_error :
    (runReader (start_reading sampleTerminal)
        [ReadOutcome.oserror, ReadOutcome.oserror]).output_queue = [none, none] ∧
    (runReader (start_reading sampleTerminal)
        [ReadOutcome.oserror]).readerRegistered = true := by
  exact ⟨rfl, rfl⟩

/-- C1 (amended): a read error or EOF enqueues one sentinel per invocation
of the reader callback, which does not unregister itself — the loop keeps
the fd registered, so each further readiness event appends one more
sentinel, until stop_reading unregisters the reader, after which no reads
are attempted at all. -/
theorem on_readable_error_behavior (t : TerminalProcess) (evs : List ReadOutcome) :
    (on_readable t ReadOutcome.oserror).output_queue = t.output_queue ++ [none] ∧
    (on_readable t ReadOutcome.oserror).readerRegistered = t.readerRegistered ∧
    runReader (stop_reading t) evs = stop_reading t := by
  refine ⟨rfl, rfl, ?_⟩
  induction evs with
  | nil => rfl
  | cons e evs ih => simpa [runReader, stop_reading] using ih

/-! The session registry. -/

/-- C5: when create(terminal_id, work_dir) fails because the subprocess
cannot be started, the error is surfaced to the caller and the
identifier-to-session registry is left unchanged — the insertion into
self.terminals happens only after create_subprocess_exec has succeeded. -/
theorem create_spawn_failure_registry_unchanged (fs : FileSystem)
    (st : ManagerState) (tid wd : String) :
    (TerminalManager.create fs false st tid wd).2 =
      Except.error SpawnError.spawnFailure ∧
    (TerminalManager.create fs false st tid wd).1.terminals = st.terminals := by
  constructor <;> simp [TerminalManager.create]

/-- C9: if the supplied working directory is not a directory, create
substitutes the invoking user's home directory, and behaves exactly as a
create for the home directory would — it never fails solely because the
requested directory is missing. -/
theorem create_missing_dir_uses_home (fs : FileSystem) (st : ManagerState)
    (tid wd : String) (h : fs.isdir wd = false) :
    (∃ t, (TerminalManager.create fs true st tid wd).2 = Except.ok t ∧
      t.cwd = fs.home) ∧
    TerminalManager.create fs true st tid wd =
      TerminalManager.create fs true st tid fs.home := by
  constructor
  · exact ⟨_, rfl, by simp [h]⟩
  · simp [TerminalManager.create, h, ite_self]

/-- C9 witness: a concrete create call for a missing directory. -/
theorem create_missing_dir_uses_home_witness :
    (∃ t, (TerminalManager.create fsSample true managerSt0 "term-1" "/missing").2 =
        Except.ok t ∧ t.cwd = fsSample.home) ∧
    TerminalManager.create fsSample true managerSt0 "term-1" "/missing" =
      TerminalManager.create fsSample true managerSt0 "term-1" fsSample.home :=
  create_missing_dir_uses_home fsSample managerSt0 "term-1" "/missing" rfl

/-! The WebSocket control protocol. -/

/-- C3 counterexample: a resize frame whose cols value is present but
malformed (the string "abc") does not fall back to the default geometry —
int("abc") raises ValueError before resize is reached, the whole statement
is skipped by the except clause, and no resize at all is invoked, contrary
to the claim that 80 x 24 is used whenever cols or rows is malformed. -/
theorem resize_malformed_value_not_defaulted :
    handleTextFrame (TextMsg.val (PyVal.pydict
      [("type", PyVal.pystr "resize"), ("cols", PyVal.pystr "abc"),
       ("rows", PyVal.pyint 24)])) = TextOutcome.cont none ∧
    handleTextFrame (TextMsg.val (PyVal.pydict
      [("type", PyVal.pystr "resize"), ("cols", PyVal.pystr "abc"),
       ("rows", PyVal.pyint 24)])) ≠ TextOutcome.cont (some (80, 24)) := by
  exact ⟨rfl, by decide⟩

/-- Under a resize object with int-valued cols and rows, the parsing stage
requests exactly that resize invocation. -/
theorem handleTextFrame_resize_ints {xs : List (String × PyVal)} {c r : Int}
    (hty : dlookup "type" xs = some (PyVal.pystr "resize"))
    (hc : dlookup "cols" xs = some (PyVal.pyint c))
    (hr : dlookup "rows" xs = some (PyVal.pyint r)) :
    handleTextFrame (TextMsg.val (PyVal.pydict xs)) =
      TextOutcome.cont (some (c, r)) := by
  have hres : pyEqStr (PyVal.pystr "resize") "resize" = true := rfl
  simp [handleTextFrame, hty, hc, hr, hres, pyInt]

/-- An in-range geometry is applied (struct.pack succeeds, the ioctl's
OSError on a closed fd is swallowed). -/
theorem resize_in_range {t : TerminalProcess} {c r : Int}
    (h : 0 ≤ r ∧ r < 65536 ∧ 0 ≤ c ∧ c < 65536) :
    t.resize c r =
      Except.ok (if t.fdClosed then t else { t with cols := c, rows := r }) := by
  unfold TerminalProcess.resize
  rw [if_pos h]

/-- An out-of-range geometry makes struct.pack raise struct.error, which
the except OSError clause does not catch. -/
theorem resize_out_of_range {t : TerminalProcess} {c r : Int}
    (h : ¬(0 ≤ r ∧ r < 65536 ∧ 0 ≤ c ∧ c < 65536)) :
    t.resize c r = Except.error PyExc.structError := by
  unfold TerminalProcess.resize
  rw [if_neg h]

/-- C3 (amended): for a text frame parsing to a JSON object whose type is
"resize", the handler invokes resize with the int()-converted cols/rows,
substituting the defaults 80 / 24 only when the respective key is absent;
when both converted values fit in unsigned 16-bit shorts the new geometry
is applied and the receive loop continues, while an out-of-range value
makes struct.pack raise struct.error, which no surrounding except clause
catches, so the connection handler terminates; a present-but-malformed
value makes int() raise inside the caught exception tuple, so no resize is
invoked and the frame is dropped with the connection intact; invalid JSON
and non-resize objects are silently ignored; and a text frame whose JSON
value is not an object raises AttributeError, which the inner except does
not catch, likewise terminating the connection handler. -/
theorem text_frame_resize_spec :
    (∀ xs (t : TerminalProcess),
      dlookup "type" xs = some (PyVal.pystr "resize") →
      dlookup "cols" xs = none → dlookup "rows" xs = none →
      handleTextFrame (TextMsg.val (PyVal.pydict xs)) =
        TextOutcome.cont (some (80, 24)) ∧
      receive_step t (WsFrame.text (TextMsg.val (PyVal.pydict xs))) =
        ((if t.fdClosed then t else { t with cols := 80, rows := 24 }), true)) ∧
    (∀ xs (c r : Int), dlookup "type" xs = some (PyVal.pystr "resize") →
      dlookup "cols" xs = some (PyVal.pyint c) →
      dlookup "rows" xs = some (PyVal.pyint r) →
      handleTextFrame (TextMsg.val (PyVal.pydict xs)) =
        TextOutcome.cont (some (c, r))) ∧
    (∀ xs (c r : Int) (t : TerminalProcess),
      dlookup "type" xs = some (PyVal.pystr "resize") →
      dlookup "cols" xs = some (PyVal.pyint c) →
      dlookup "rows" xs = some (PyVal.pyint r) →
      0 ≤ r ∧ r < 65536 ∧ 0 ≤ c ∧ c < 65536 →
      receive_step t (WsFrame.text (TextMsg.val (PyVal.pydict xs))) =
        ((if t.fdClosed then t else { t with cols := c, rows := r }), true)) ∧
    (∀ xs (c r : Int) (t : TerminalProcess),
      dlookup "type" xs = some (PyVal.pystr "resize") →
      dlookup "cols" xs = some (PyVal.pyint c) →
      dlookup "rows" xs = some (PyVal.pyint r) →
      ¬(0 ≤ r ∧ r < 65536 ∧ 0 ≤ c ∧ c < 65536) →
      receive_step t (WsFrame.text (TextMsg.val (PyVal.pydict xs))) =
        (t, false)) ∧
    (∀ xs v e (t : TerminalProcess),
      dlookup "type" xs = some (PyVal.pystr "resize") →
      dlookup "cols" xs = some v → pyInt v = Except.error e →
      handleTextFrame (TextMsg.val (PyVal.pydict xs)) = TextOutcome.cont none ∧
      receive_step t (WsFrame.text (TextMsg.val (PyVal.pydict xs))) = (t, true)) ∧
    (handleTextFrame TextMsg.invalidJSON = TextOutcome.cont none ∧
      ∀ t : TerminalProcess,
        receive_step t (WsFrame.text TextMsg.invalidJSON) = (t, true)) ∧
    (∀ xs (t : TerminalProcess),
      pyEqStr ((dlookup "type" xs).getD PyVal.pynone) "resize" = false →
      receive_step t (WsFrame.text (TextMsg.val (PyVal.pydict xs))) = (t, true)) ∧
    (∀ (t : TerminalProcess) v, (∀ xs, v ≠ PyVal.pydict xs) →
      receive_step t (WsFrame.text (TextMsg.val v)) = (t, false)) := by
  have hres : pyEqStr (PyVal.pystr "resize") "resize" = true := rfl
  refine ⟨?_, ?_, ?_, ?_, ?_, ⟨rfl, fun t => rfl⟩, ?_, ?_⟩
  · intro xs t hty hcols hrows
    have hm : handleTextFrame (TextMsg.val (PyVal.pydict xs)) =
        TextOutcome.cont (some (80, 24)) := by
      simp [handleTextFrame, hty, hcols, hrows, hres, pyInt]
    refine ⟨hm, ?_⟩
    have h24 := resize_in_range (t := t) (c := 80) (r := 24) (by decide)
    simp [receive_step, hm, h24]
  · intro xs c r hty hc hr
    exact handleTextFrame_resize_ints hty hc hr
  · intro xs c r t hty hc hr hin
    have hm := handleTextFrame_resize_ints hty hc hr
    simp [receive_step, hm, resize_in_range hin]
  · intro xs c r t hty hc hr hout
    have hm := handleTextFrame_resize_ints hty hc hr
    simp [receive_step, hm, resize_out_of_range hout]
  · intro xs v e t hty hcols herr
    have hm : handleTextFrame (TextMsg.val (PyVal.pydict xs)) = TextOutcome.cont none := by
      simp [handleTextFrame, hty, hcols, hres, herr]
    exact ⟨hm, by simp [receive_step, hm]⟩
  · intro xs t hty
    have hm : handleTextFrame (TextMsg.val (PyVal.pydict xs)) = TextOutcome.cont none := by
      simp [handleTextFrame, hty]
    simp [receive_step, hm]
  · intro t v hv
    cases v with
    | pydict xs => exact absurd rfl (hv xs)
    | pynone => rfl
    | pybool b => rfl
    | pyint n => rfl
    | pystr s => rfl

/-- C3 witness: a well-formed in-range resize frame carrying 120 x 40
applies exactly that geometry and the connection continues. -/
theorem text_frame_resize_spec_witness :
    receive_step sampleTerminal (WsFrame.text (TextMsg.val (PyVal.pydict
      [("type", PyVal.pystr "resize"), ("cols", PyVal.pyint 120),
       ("rows", PyVal.pyint 40)]))) =
      ({ sampleTerminal with cols := 120, rows := 40 }, true) :=
  text_frame_resize_spec.2.2.1
    [("type", PyVal.pystr "resize"), ("cols", PyVal.pyint 120),
     ("rows", PyVal.pyint 40)] 120 40 sampleTerminal rfl rfl rfl (by decide)

/-! The reverse proxy. -/

/-- C2 counterexample: in streaming mode the client-facing response is
built with the explicit header dict of server.py line 220, which contains
Connection: keep-alive — a hop-by-hop header — so the returned response
does carry a hop-by-hop header, contrary to the claim that none is present
in any proxied scenario. -/
theorem sse_response_carries_connection_header :
    isHopByHop "Connection" = true ∧
    ("Connection", "keep-alive") ∈
      (proxy "http://localhost:5000" reqSSE BackendOutcome.connectError).2.headers := by
  constructor
  · rfl
  · have h : isSSERequest reqSSE = true := by decide
    simp [proxy, h, sse_response]

/-- C2 (amended): hop-by-hop headers of the incoming request are forwarded
to the backend in neither mode; the backend response's hop-by-hop headers
are stripped from the buffered-mode response; but the streaming-mode
response consists of exactly the fixed headers Cache-Control: no-cache and
Connection: keep-alive, the latter being hop-by-hop. -/
theorem hop_by_hop_filtering (backendUrl : String) (req : ProxyRequest)
    (backend : BackendOutcome) :
    (∀ kv ∈ (proxy backendUrl req backend).1.headers, isHopByHop kv.1 = false) ∧
    (isSSERequest req = false →
      ∀ kv ∈ (proxy backendUrl req backend).2.headers, isHopByHop kv.1 = false) ∧
    (isSSERequest req = true →
      (proxy backendUrl req backend).2.headers =
        [("Cache-Control", "no-cache"), ("Connection", "keep-alive")]) := by
  refine ⟨?_, ?_, ?_⟩
  · intro kv hmem
    have hmem' : kv ∈ List.filter
        (fun kv => !isHopByHop kv.1 && lowerStr kv.1 != "host") req.headers := hmem
    have hp := (List.mem_filter.mp hmem').2
    cases hb : isHopByHop kv.1
    · rfl
    · rw [hb] at hp
      simp at hp
  · intro hsse kv hmem
    have hresp : (proxy backendUrl req backend).2 = buffered_response backend := by
      simp [proxy, hsse]
    rw [hresp] at hmem
    cases backend with
    | ok s hs cs =>
      have hmem' : kv ∈ List.filter (fun kv => !isHopByHop kv.1) hs := hmem
      have hp := (List.mem_filter.mp hmem').2
      cases hb : isHopByHop kv.1
      · rfl
      · rw [hb] at hp
        simp at hp
    | connectError => simp [buffered_response] at hmem
    | timeout => simp [buffered_response] at hmem
  · intro hsse
    simp [proxy, hsse, sse_response]

/-- C2 witness: a concrete streaming request exercising the amended
statement's streaming conjunct. -/
theorem hop_by_hop_filtering_witness :
    (proxy "http://localhost:5000" reqSSE BackendOutcome.timeout).2.headers =
      [("Cache-Control", "no-cache"), ("Connection", "keep-alive")] :=
  (hop_by_hop_filtering "http://localhost:5000" reqSSE BackendOutcome.timeout).2.2
    (by decide)

/-- C10: in streaming mode the client-facing response always has status
200 with media type text/event-stream and the fixed header dict, whatever
the backend outcome: the backend's status code and headers are never
forwarded, and the stream carries exactly the backend's body chunks, or a
single synthetic error event. -/
theorem sse_proxy_response_spec (backendUrl : String) (req : ProxyRequest)
    (backend : BackendOutcome) (h : isSSERequest req = true) :
    (proxy backendUrl req backend).2.status = 200 ∧
    (proxy backendUrl req backend).2.media_type = some "text/event-stream" ∧
    (proxy backendUrl req backend).2.headers =
      [("Cache-Control", "no-cache"), ("Connection", "keep-alive")] ∧
    (∀ s hs cs, backend = BackendOutcome.ok s hs cs →
      (proxy backendUrl req backend).2.chunks = cs) ∧
    (backend = BackendOutcome.connectError →
      (proxy backendUrl req backend).2.chunks = [SSE_UNREACHABLE_EVENT]) ∧
    (backend = BackendOutcome.timeout →
      (proxy backendUrl req backend).2.chunks = [SSE_TIMEOUT_EVENT]) := by
  have hresp : (proxy backendUrl req backend).2 = sse_response backend := by
    simp [proxy, h]
  refine ⟨by rw [hresp]; rfl, by rw [hresp]; rfl, by rw [hresp]; rfl, ?_, ?_, ?_⟩
  · intro s hs cs hb
    subst hb
    rw [hresp]
    rfl
  · intro hb
    subst hb
    rw [hresp]
    rfl
  · intro hb
    subst hb
    rw [hresp]
    rfl

/-- C10 witness: a backend 502 with internal headers still reaches the
streaming client as a 200 event-stream response. -/
theorem sse_proxy_response_spec_witness :
    (proxy "http://localhost:5000" reqSSE
      (BackendOutcome.ok 502 [("X-Backend", "internal")] ["data: hi\n\n"])).2.status = 200 :=
  (sse_proxy_response_spec "http://localhost:5000" reqSSE
    (BackendOutcome.ok 502 [("X-Backend", "internal")] ["data: hi\n\n"]) (by decide)).1

/-! Registry helper lemmas. -/

/-- cancel_destroy_timer either cancels the pending task referenced by
_destroy_task and clears the reference, or (no task, unknown task, task
already done) changes nothing. -/
theorem cancel_destroy_timer_cases (t : TerminalProcess)
    (timers : List (Nat × TimerInfo)) :
    (∃ j₀ info₀, t.destroy_task = some j₀ ∧ dlookup j₀ timers = some info₀ ∧
      info₀.status = TimerStatus.pending ∧
      t.cancel_destroy_timer timers =
        ({ t with destroy_task := none },
         dupdate j₀ (fun i => { i with status := TimerStatus.cancelled }) timers)) ∨
    (t.cancel_destroy_timer timers = (t, timers) ∧
      ∀ j₀ info₀, t.destroy_task = some j₀ → dlookup j₀ timers = some info₀ →
        info₀.status ≠ TimerStatus.pending) := by
  unfold TerminalProcess.cancel_destroy_timer
  cases hd : t.destroy_task with
  | none =>
    refine Or.inr ⟨rfl, ?_⟩
    intro j₀ info₀ h1
    cases h1
  | some j =>
    dsimp only
    cases hl : dlookup j timers with
    | none =>
      dsimp only
      refine Or.inr ⟨rfl, ?_⟩
      intro j₀ info₀ h1 h2
      injection h1 with h1
      subst h1
      rw [hl] at h2
      cases h2
    | some info =>
      dsimp only
      by_cases hs : info.status = TimerStatus.pending
      · exact Or.inl ⟨j, info, rfl, hl, hs, by rw [if_pos hs]⟩
      · refine Or.inr ⟨by rw [if_neg hs], ?_⟩
        intro j₀ info₀ h1 h2
        injection h1 with h1
        subst h1
        rw [hl] at h2
        injection h2 with h2
        subst h2
        exact hs

/-- cancel_destroy_timer never touches the timer-table keys. -/
theorem cancel_destroy_timer_keys (t : TerminalProcess)
    (timers : List (Nat × TimerInfo)) :
    ((t.cancel_destroy_timer timers).2.map Prod.fst) = timers.map Prod.fst := by
  rcases cancel_destroy_timer_cases t timers with ⟨j₀, i₀, _, _, _, heq⟩ | ⟨heq, _⟩
  · rw [heq]
    exact keys_dupdate
  · rw [heq]

/-- cancel_destroy_timer at most clears the _destroy_task reference; every
other attribute of the terminal object is untouched. -/
theorem cancel_keeps_identity (t : TerminalProcess)
    (timers : List (Nat × TimerInfo)) :
    (t.cancel_destroy_timer timers).1.nonce = t.nonce ∧
    (t.cancel_destroy_timer timers).1.master_fd = t.master_fd ∧
    (t.cancel_destroy_timer timers).1.pid = t.pid := by
  rcases cancel_destroy_timer_cases t timers with ⟨j₀, i₀, _, _, _, heq⟩ | ⟨heq, _⟩ <;>
    rw [heq] <;> exact ⟨rfl, rfl, rfl⟩

/-- Unfolding of the reconnect branch of the attach logic. -/
theorem lookupOrCreate_present {fs : FileSystem} {spawnOk : Bool}
    {st : ManagerState} {tid wd : String} {t : TerminalProcess}
    (h : dlookup tid st.terminals = some t) :
    lookupOrCreate fs spawnOk st tid wd =
      ({ st with timers := (t.cancel_destroy_timer st.timers).2,
                 terminals := dupdate tid
                   (fun _ => (t.cancel_destroy_timer st.timers).1) st.terminals },
       Except.ok (t.cancel_destroy_timer st.timers).1) := by
  unfold lookupOrCreate
  rw [h]

/-- Unfolding of the create branch of the attach logic. -/
theorem lookupOrCreate_absent {fs : FileSystem} {spawnOk : Bool}
    {st : ManagerState} {tid wd : String}
    (h : dlookup tid st.terminals = none) :
    lookupOrCreate fs spawnOk st tid wd =
      TerminalManager.create fs spawnOk st tid wd := by
  unfold lookupOrCreate
  rw [h]

/-- Unfolding of a successful create. -/
theorem create_ok (fs : FileSystem) (st : ManagerState) (tid wd : String) :
    TerminalManager.create fs true st tid wd =
      ({ st with
          nextFd := st.nextFd + 2,
          nextPid := st.nextPid + 1,
          spawnCount := st.spawnCount + 1,
          terminals := dinsert tid (createdTerminal fs st tid wd) st.terminals },
       Except.ok (createdTerminal fs st tid wd)) := rfl

/-- C6: the attach logic creates a session only when the identifier is
absent from the registry; while an entry is present, every further lookup
returns the same underlying session object (same spawn nonce, same PTY
descriptor, same child process) and performs no additional spawn. -/
theorem lookupOrCreate_spec (fs : FileSystem) (spawnOk : Bool) (st : ManagerState)
    (tid wd wd' : String) :
    (dlookup tid st.terminals = none →
      lookupOrCreate fs spawnOk st tid wd = TerminalManager.create fs spawnOk st tid wd) ∧
    (∀ t, dlookup tid st.terminals = some t →
      (∃ t', (lookupOrCreate fs spawnOk st tid wd).2 = Except.ok t' ∧
        t'.nonce = t.nonce ∧ t'.master_fd = t.master_fd ∧ t'.pid = t.pid) ∧
      (lookupOrCreate fs spawnOk st tid wd).1.spawnCount = st.spawnCount) ∧
    (∀ t, (lookupOrCreate fs spawnOk st tid wd).2 = Except.ok t →
      ∃ t', (lookupOrCreate fs spawnOk
          (lookupOrCreate fs spawnOk st tid wd).1 tid wd').2 = Except.ok t' ∧
        t'.nonce = t.nonce ∧ t'.master_fd = t.master_fd ∧ t'.pid = t.pid ∧
        (lookupOrCreate fs spawnOk
          (lookupOrCreate fs spawnOk st tid wd).1 tid wd').1.spawnCount =
          (lookupOrCreate fs spawnOk st tid wd).1.spawnCount) := by
  refine ⟨fun h => lookupOrCreate_absent h, ?_, ?_⟩
  · intro t h
    rw [lookupOrCreate_present h]
    exact ⟨⟨_, rfl, cancel_keeps_identity t st.timers⟩, rfl⟩
  · intro t h
    cases hd : dlookup tid st.terminals with
    | some t0 =>
      rw [lookupOrCreate_present hd] at h ⊢
      injection h with h
      have hlk : dlookup tid (dupdate tid
          (fun _ => (t0.cancel_destroy_timer st.timers).1) st.terminals) =
          some (t0.cancel_destroy_timer st.timers).1 := by
        rw [dlookup_dupdate_self, hd]
        rfl
      rw [lookupOrCreate_present hlk]
      refine ⟨_, rfl, ?_, ?_, ?_, rfl⟩
      · rw [(cancel_keeps_identity _ _).1, h]
      · rw [(cancel_keeps_identity _ _).2.1, h]
      · rw [(cancel_keeps_identity _ _).2.2, h]
    | none =>
      rw [lookupOrCreate_absent hd] at h ⊢
      cases spawnOk with
      | false => cases h
      | true =>
        rw [create_ok] at h ⊢
        injection h with h
        have hlk : dlookup tid
            (dinsert tid (createdTerminal fs st tid wd) st.terminals) =
            some (createdTerminal fs st tid wd) := dlookup_dinsert_self
        rw [lookupOrCreate_present hlk]
        refine ⟨_, rfl, ?_, ?_, ?_, rfl⟩
        · rw [(cancel_keeps_identity _ _).1, ← h]
        · rw [(cancel_keeps_identity _ _).2.1, ← h]
        · rw [(cancel_keeps_identity _ _).2.2, ← h]

/-- C6 witness: create on first attach, then a second attach for the same
id returns the same session with no extra spawn. -/
theorem lookupOrCreate_spec_witness :
    ∃ t', (lookupOrCreate fsSample true
        (lookupOrCreate fsSample true managerSt0 "term-a" "/workspace").1
        "term-a" "/elsewhere").2 = Except.ok t' ∧
      t'.nonce = tSampleA.nonce ∧ t'.master_fd = tSampleA.master_fd ∧
      t'.pid = tSampleA.pid ∧
      (lookupOrCreate fsSample true
        (lookupOrCreate fsSample true managerSt0 "term-a" "/workspace").1
        "term-a" "/elsewhere").1.spawnCount =
        (lookupOrCreate fsSample true managerSt0 "term-a" "/workspace").1.spawnCount :=
  (lookupOrCreate_spec fsSample true managerSt0 "term-a" "/workspace" "/elsewhere").2.2
    tSampleA rfl

/-- C8: destroy removes the registry entry when present (lookups then miss),
cancels a pending eviction timer, and closes the session — reader
unregistered, child killed, descriptor released; for an unknown identifier
it is a total no-op and cannot fail. -/
theorem destroy_spec (st : ManagerState) (tid : String)
    (hkeys : (st.terminals.map Prod.fst).Nodup) :
    (dlookup tid st.terminals = none → TerminalManager.destroy st tid = (st, none)) ∧
    (∀ t, dlookup tid st.terminals = some t →
      (TerminalManager.destroy st tid).1.terminals = dremove tid st.terminals ∧
      dlookup tid (TerminalManager.destroy st tid).1.terminals = none ∧
      (∃ t', (TerminalManager.destroy st tid).2 = some t' ∧
        t'.readerRegistered = false ∧ t'.procKilled = true ∧ t'.fdClosed = true) ∧
      (∀ j info, t.destroy_task = some j → dlookup j st.timers = some info →
        info.status = TimerStatus.pending →
        dlookup j (TerminalManager.destroy st tid).1.timers =
          some { info with status := TimerStatus.cancelled })) := by
  constructor
  · intro h
    unfold TerminalManager.destroy
    rw [h]
  · intro t h
    have hd : TerminalManager.destroy st tid =
        ({ st with terminals := dremove tid st.terminals,
                   timers := (t.cancel_destroy_timer st.timers).2 },
         some (t.cancel_destroy_timer st.timers).1.close) := by
      unfold TerminalManager.destroy
      rw [h]
    refine ⟨by rw [hd], ?_, ?_, ?_⟩
    · rw [hd]
      exact dlookup_dremove_self hkeys
    · rw [hd]
      exact ⟨_, rfl, rfl, rfl, rfl⟩
    · intro j info hj hl hp
      rw [hd]
      dsimp only
      rcases cancel_destroy_timer_cases t st.timers with
        ⟨j₀, i₀, hj₀, hl₀, _, heq⟩ | ⟨heq, hnone⟩
      · rw [heq]
        dsimp only
        rw [hj₀] at hj
        injection hj with hj
        subst hj
        rw [dlookup_dupdate_self, hl]
        rfl
      · exact absurd hp (hnone j info hj hl)

/-- C8 witness: destroying an unknown identifier is a no-op. -/
theorem destroy_spec_witness :
    TerminalManager.destroy managerSt0 "ghost" = (managerSt0, none) :=
  (destroy_spec managerSt0 "ghost" (by simp [managerSt0])).1 rfl

/-! The eviction timers. -/

/-- Unfolding of schedule_destroy for a registered terminal. -/
theorem schedule_destroy_present {st : ManagerState} {tid : String}
    {t : TerminalProcess} (h : dlookup tid st.terminals = some t) :
    TerminalManager.schedule_destroy st tid =
      { st with
        timers := (t.cancel_destroy_timer st.timers).2 ++
          [(st.nextTimer,
            { target := tid, delay := RECONNECT_TIMEOUT_SECONDS,
              status := TimerStatus.pending })],
        nextTimer := st.nextTimer + 1,
        terminals := dupdate tid
          (fun _ => { (t.cancel_destroy_timer st.timers).1 with
                      destroy_task := some st.nextTimer }) st.terminals } := by
  unfold TerminalManager.schedule_destroy
  rw [h]

/-- Unfolding of the reconnect-path timer cancellation for a registered
terminal. -/
theorem cancelEviction_present {st : ManagerState} {tid : String}
    {t : TerminalProcess} (h : dlookup tid st.terminals = some t) :
    cancelEviction st tid =
      { st with
        timers := (t.cancel_destroy_timer st.timers).2,
        terminals := dupdate tid
          (fun _ => (t.cancel_destroy_timer st.timers).1) st.terminals } := by
  unfold cancelEviction
  rw [h]

/-- A still-pending timer task runs destroy on its target when it expires. -/
theorem fire_timer_pending {st : ManagerState} {j : Nat} {info : TimerInfo}
    (h : dlookup j st.timers = some info)
    (hs : info.status = TimerStatus.pending) :
    TerminalManager.fire_timer st j =
      (TerminalManager.destroy
        { st with
          timers := dupdate j (fun i => { i with status := TimerStatus.fired })
            st.timers }
        info.target).1 := by
  unfold TerminalManager.fire_timer
  rw [h]
  dsimp only
  rw [if_pos hs]

/-- A timer task that is no longer pending (cancelled, or already fired)
does nothing at its expiry point. -/
theorem fire_timer_not_pending {st : ManagerState} {j : Nat} {info : TimerInfo}
    (h : dlookup j st.timers = some info)
    (hs : info.status ≠ TimerStatus.pending) :
    TerminalManager.fire_timer st j = st := by
  unfold TerminalManager.fire_timer
  rw [h]
  dsimp only
  rw [if_neg hs]

/-- Under the timer invariant, a terminal holds at most one pending timer:
any two pending timers for the same target coincide. -/
theorem pending_unique_of_inv (st : ManagerState) (hinv : TimerInv st) :
    ∀ tid j j', isPendingTimer st tid j → isPendingTimer st tid j' → j = j' := by
  obtain ⟨hnK, hnT, href, hbound⟩ := hinv
  rintro tid j j' ⟨info, hj, htarget, hpend⟩ ⟨info', hj', htarget', hpend'⟩
  have h1 := href (j, info) (dlookup_mem hj) hpend
  have h2 := href (j', info') (dlookup_mem hj') hpend'
  dsimp only at h1 h2
  rw [htarget] at h1
  rw [htarget'] at h2
  rw [h1] at h2
  injection h2 with h2
  injection h2

/-- Where a pending timer in the post-schedule state can come from: it is
the freshly armed one, or an old timer for a different target. -/
theorem pending_after_schedule {st : ManagerState} {tid : String}
    {t : TerminalProcess} (hinv : TimerInv st)
    (hp : dlookup tid st.terminals = some t) {j : Nat} {info : TimerInfo}
    (hj : dlookup j (TerminalManager.schedule_destroy st tid).timers = some info)
    (hpend : info.status = TimerStatus.pending) :
    (j = st.nextTimer ∧
      info = { target := tid, delay := RECONNECT_TIMEOUT_SECONDS,
               status := TimerStatus.pending }) ∨
    (dlookup j st.timers = some info ∧ info.target ≠ tid) := by
  obtain ⟨hnK, hnT, href, hbound⟩ := hinv
  rw [schedule_destroy_present hp] at hj
  dsimp only at hj
  cases hC : dlookup j (t.cancel_destroy_timer st.timers).2 with
  | some info' =>
    rw [dlookup_append_some hC] at hj
    injection hj with hj
    subst hj
    right
    rcases cancel_destroy_timer_cases t st.timers with
      ⟨j₀, i₀, hj₀, hl₀, hs₀, heq⟩ | ⟨heq, hnone⟩
    · rw [heq] at hC
      dsimp only at hC
      by_cases hjj : j = j₀
      · subst hjj
        rw [dlookup_dupdate_self, hl₀] at hC
        injection hC with hC
        rw [← hC] at hpend
        simp at hpend
      · rw [dlookup_dupdate_ne hjj] at hC
        refine ⟨hC, fun htgt => ?_⟩
        have h1 := href (j, info') (dlookup_mem hC) hpend
        dsimp only at h1
        rw [htgt, hp] at h1
        simp only [Option.map_some'] at h1
        injection h1 with h1
        rw [hj₀] at h1
        injection h1 with h1
        exact hjj h1.symm
    · rw [heq] at hC
      refine ⟨hC, fun htgt => ?_⟩
      have h1 := href (j, info') (dlookup_mem hC) hpend
      dsimp only at h1
      rw [htgt, hp] at h1
      simp only [Option.map_some'] at h1
      injection h1 with h1
      exact hnone j info' h1 hC hpend
  | none =>
    rw [dlookup_append_none hC] at hj
    left
    by_cases hjn : j = st.nextTimer
    · subst hjn
      refine ⟨rfl, ?_⟩
      simp [dlookup] at hj
      exact hj.symm
    · simp [dlookup, hjn] at hj

/-- C7: a session holds at most one pending eviction timer; schedule_destroy
first cancels the existing pending timer for the identifier and then arms a
single fresh one-shot 300-second timer — afterwards exactly one pending
timer exists for the session, its expiry removes the session from the
registry, and the reconnect-path cancellation performed before expiry makes
that expiry a no-op, so the scheduled destroy never fires for that
arming. -/
theorem schedule_destroy_timer_spec (st : ManagerState) (tid : String)
    (t : TerminalProcess) (hinv : TimerInv st)
    (hp : dlookup tid st.terminals = some t) :
    (∀ tid' j j', isPendingTimer st tid' j → isPendingTimer st tid' j' → j = j') ∧
    (∀ j info, t.destroy_task = some j → dlookup j st.timers = some info →
      info.status = TimerStatus.pending →
      dlookup j (TerminalManager.schedule_destroy st tid).timers =
        some { info with status := TimerStatus.cancelled }) ∧
    dlookup st.nextTimer (TerminalManager.schedule_destroy st tid).timers =
      some { target := tid, delay := RECONNECT_TIMEOUT_SECONDS,
             status := TimerStatus.pending } ∧
    (∀ tid' j j',
      isPendingTimer (TerminalManager.schedule_destroy st tid) tid' j →
      isPendingTimer (TerminalManager.schedule_destroy st tid) tid' j' →
      j = j') ∧
    (∀ j, isPendingTimer (TerminalManager.schedule_destroy st tid) tid j →
      j = st.nextTimer) ∧
    dlookup tid
      (TerminalManager.fire_timer (TerminalManager.schedule_destroy st tid) st.nextTimer).terminals
      = none ∧
    TerminalManager.fire_timer (cancelEviction (TerminalManager.schedule_destroy st tid) tid)
        st.nextTimer =
      cancelEviction (TerminalManager.schedule_destroy st tid) tid := by
  obtain ⟨hnK, hnT, href, hbound⟩ := hinv
  -- the fresh timer key is not in the old table
  have hkey : st.nextTimer ∉ st.timers.map Prod.fst := by
    intro hmem
    obtain ⟨p, hpmem, hpe⟩ := List.mem_map.mp hmem
    have hlt := hbound p hpmem
    rw [hpe] at hlt
    exact Nat.lt_irrefl _ hlt
  have hCnone : dlookup st.nextTimer (t.cancel_destroy_timer st.timers).2 = none := by
    apply dlookup_eq_none
    rw [cancel_destroy_timer_keys]
    exact hkey
  -- conjunct 3: the fresh timer is armed and pending
  have h3 : dlookup st.nextTimer (TerminalManager.schedule_destroy st tid).timers =
      some { target := tid, delay := RECONNECT_TIMEOUT_SECONDS,
             status := TimerStatus.pending } := by
    rw [schedule_destroy_present hp]
    dsimp only
    rw [dlookup_append_none hCnone]
    simp [dlookup]
  refine ⟨pending_unique_of_inv st ⟨hnK, hnT, href, hbound⟩, ?_, h3, ?_, ?_, ?_, ?_⟩
  -- conjunct 2: the previously pending timer is cancelled
  · intro j info hjt hl hpd
    rcases cancel_destroy_timer_cases t st.timers with
      ⟨j₀, i₀, hj₀, hl₀, hs₀, heq⟩ | ⟨heq, hnone⟩
    · rw [hj₀] at hjt
      injection hjt with hjt
      subst hjt
      rw [schedule_destroy_present hp]
      dsimp only
      have hsome : dlookup j₀ ((t.cancel_destroy_timer st.timers).2) =
          some { info with status := TimerStatus.cancelled } := by
        rw [heq]
        dsimp only
        rw [dlookup_dupdate_self, hl]
        rfl
      exact dlookup_append_some hsome
    · exact absurd hpd (hnone j info hjt hl)
  -- conjunct 4: at most one pending timer per target after scheduling
  · rintro tid' j j' ⟨info, hj, ht, hpd⟩ ⟨info', hj', ht', hpd'⟩
    rcases pending_after_schedule ⟨hnK, hnT, href, hbound⟩ hp hj hpd with
      ⟨hje, hie⟩ | ⟨hlst, hne⟩ <;>
      rcases pending_after_schedule ⟨hnK, hnT, href, hbound⟩ hp hj' hpd' with
        ⟨hje', hie'⟩ | ⟨hlst', hne'⟩
    · rw [hje, hje']
    · rw [hie] at ht
      dsimp only at ht
      rw [← ht] at ht'
      exact absurd ht' hne'
    · rw [hie'] at ht'
      dsimp only at ht'
      rw [← ht'] at ht
      exact absurd ht hne
    · exact pending_unique_of_inv st ⟨hnK, hnT, href, hbound⟩ tid' j j'
        ⟨info, hlst, ht, hpd⟩ ⟨info', hlst', ht', hpd'⟩
  -- conjunct 5: the fresh timer is the only pending one for this id
  · rintro j ⟨info, hj, ht, hpd⟩
    rcases pending_after_schedule ⟨hnK, hnT, href, hbound⟩ hp hj hpd with
      ⟨hje, _⟩ | ⟨_, hne⟩
    · exact hje
    · exact absurd ht hne
  -- conjunct 6: expiry of the fresh timer destroys the session
  · have h6 := fire_timer_pending h3 rfl
    rw [h6]
    dsimp only
    have hpres : dlookup tid
        ({ (TerminalManager.schedule_destroy st tid) with
           timers := dupdate st.nextTimer
             (fun i => { i with status := TimerStatus.fired })
             (TerminalManager.schedule_destroy st tid).timers }).terminals =
        some { (t.cancel_destroy_timer st.timers).1 with
               destroy_task := some st.nextTimer } := by
      dsimp only
      rw [schedule_destroy_present hp]
      dsimp only
      rw [dlookup_dupdate_self, hp]
      rfl
    have hdest : ∀ st' : ManagerState, ∀ t' : TerminalProcess,
        dlookup tid st'.terminals = some t' →
        (TerminalManager.destroy st' tid).1.terminals = dremove tid st'.terminals := by
      intro st' t' hpr
      unfold TerminalManager.destroy
      rw [hpr]
    rw [hdest _ _ hpres]
    apply dlookup_dremove_self
    dsimp only
    rw [schedule_destroy_present hp]
    dsimp only
    rw [keys_dupdate]
    exact hnK
  -- conjunct 7: cancellation before expiry makes the expiry a no-op
  · have hlkNew : dlookup tid (TerminalManager.schedule_destroy st tid).terminals =
        some { (t.cancel_destroy_timer st.timers).1 with
               destroy_task := some st.nextTimer } := by
      rw [schedule_destroy_present hp]
      dsimp only
      rw [dlookup_dupdate_self, hp]
      rfl
    have hcancel : TerminalProcess.cancel_destroy_timer
        { (t.cancel_destroy_timer st.timers).1 with
          destroy_task := some st.nextTimer }
        (TerminalManager.schedule_destroy st tid).timers =
        ({ (t.cancel_destroy_timer st.timers).1 with destroy_task := none },
         dupdate st.nextTimer (fun i => { i with status := TimerStatus.cancelled })
           (TerminalManager.schedule_destroy st tid).timers) := by
      unfold TerminalProcess.cancel_destroy_timer
      dsimp only
      rw [h3]
      dsimp only
      rw [if_pos rfl]
    have hlc : dlookup st.nextTimer
        (cancelEviction (TerminalManager.schedule_destroy st tid) tid).timers =
        some { target := tid, delay := RECONNECT_TIMEOUT_SECONDS,
               status := TimerStatus.cancelled } := by
      rw [cancelEviction_present hlkNew]
      dsimp only
      rw [hcancel]
      dsimp only
      rw [dlookup_dupdate_self, h3]
      rfl
    exact fire_timer_not_pending hlc (by simp)

/-- C7 witness: scheduling eviction for a session that already holds a
pending timer arms the fresh pending 300 s timer under the next key. -/
theorem schedule_destroy_timer_spec_witness :
    dlookup managerStTimer.nextTimer
        (TerminalManager.schedule_destroy managerStTimer "tm").timers =
      some { target := "tm", delay := RECONNECT_TIMEOUT_SECONDS,
             status := TimerStatus.pending } :=
  (schedule_destroy_timer_spec managerStTimer "tm" termWithTimer
    (by unfold TimerInv; decide) (by decide)).2.2.1

end MedDSApp
